import Mathlib

/-!
Shallow embedding of the deck-resource-allocator core of the OT-2 protocol
scripts (`src/course_files/ot2_script_3.py`): the deck-slot finder
`next_empty_slot` and the custom-labware loader `load_custom_labware`,
together with theorems settling the testable properties stated for them.
-/

/-- A deck state: for each slot identifier, the printed form of its occupant
(Python `str(protocol.deck[slot])`), or `none` when the slot is empty
(Python `None`). `next_empty_slot` inspects slots only through `protocol.deck[slot]`,
comparing against `None` and, for slot 7, against one fixed printed string, so
this is all of the deck state the code can observe. -/
def Deck : Type := Nat → Option String

/-- The printed form of the thermal-cycling module when loaded:
`str(protocol.deck[7]) == "Thermocycler Module on 7"`. -/
def thermocyclerStr : String := "Thermocycler Module on 7"

/-- The candidate slots scanned when the thermocycler is loaded:
the literal list `[1,2,3,4,5,6,9]` from the source. -/
def tcSlots : List Nat := [1, 2, 3, 4, 5, 6, 9]

/-- The slots of the OT-2 deck, in the order `for slot in protocol.deck`
iterates them (ascending 1..12 on the reference hardware). -/
def allSlots : List Nat := [1, 2, 3, 4, 5, 6, 7, 8, 9, 10, 11, 12]

/-- The reserved footprint of the thermal-cycling module (spec §3):
slots 7, 8, 10, 11 are reserved as a unit when the module is present. -/
def reservedFootprint : List Nat := [7, 8, 10, 11]

/-- The two exceptions the component can raise: `IndexError('No Deck Slots
Remaining')` from `next_empty_slot`, and the error from `open`/`json.load`
when the definition file is missing or malformed. -/
inductive PyError where
  | noDeckSlotsRemaining
  | definitionLoadError
  deriving DecidableEq

/-- The body of each `for slot in ...` loop of `next_empty_slot`: read
`labware = protocol.deck[slot]`; if `labware is None`, `return slot`;
otherwise continue with the next candidate. `none` means the loop fell
through without returning. -/
def scan (d : Deck) : List Nat → Option Nat
  | [] => none
  | s :: rest => if d s = none then some s else scan d rest

/-- `next_empty_slot(protocol)` from `ot2_script_3.py`: if slot 7 prints as
the thermocycler, scan the fixed candidates `[1,2,3,4,5,6,9]`; otherwise scan
every deck slot in deck order; return the first empty slot, and raise
`IndexError('No Deck Slots Remaining')` if no scanned slot is empty. -/
def next_empty_slot (d : Deck) : Except PyError Nat :=
  if d 7 = some thermocyclerStr then
    match scan d tcSlots with
    | some s => Except.ok s
    | none => Except.error PyError.noDeckSlotsRemaining
  else
    match scan d allSlots with
    | some s => Except.ok s
    | none => Except.error PyError.noDeckSlotsRemaining

/-- Slot 7 currently holds the recognized thermal-cycling module. -/
def TcLoaded (d : Deck) : Prop := d 7 = some thermocyclerStr

instance (d : Deck) : Decidable (TcLoaded d) := by
  unfold TcLoaded; infer_instance

/-- Spec §3 invariant: a slot is allocatable iff it is a deck slot that is
not already holding labware and is not part of a reserved module footprint
(slots 7, 8, 10, 11 when the thermocycler is present). -/
def Allocatable (d : Deck) (s : Nat) : Prop :=
  s ∈ allSlots ∧ d s = none ∧ ¬(TcLoaded d ∧ s ∈ reservedFootprint)

instance (d : Deck) (s : Nat) : Decidable (Allocatable d s) := by
  unfold Allocatable; infer_instance

/-- State-threaded form of the loop body of `next_empty_slot`: each iteration
reads `protocol.deck[slot]` and either returns or proceeds, handing the deck
state through unchanged, since the loop contains no assignment to the deck. -/
def scanS (d : Deck) : List Nat → Option Nat × Deck
  | [] => (none, d)
  | s :: rest => if d s = none then (some s, d) else scanS d rest

/-- State-threaded form of `next_empty_slot`: the result together with the
deck state as it stands when the call finishes (normally or by raising). -/
def next_empty_slotS (d : Deck) : Except PyError Nat × Deck :=
  if d 7 = some thermocyclerStr then
    match scanS d tcSlots with
    | (some s, d1) => (Except.ok s, d1)
    | (none, d1) => (Except.error PyError.noDeckSlotsRemaining, d1)
  else
    match scanS d allSlots with
    | (some s, d1) => (Except.ok s, d1)
    | (none, d1) => (Except.error PyError.noDeckSlotsRemaining, d1)

/-- A Python value supplied for the `deck_position` parameter of
`load_custom_labware` (default `None`); the kinds of value the guard
`if not deck_position` can receive. -/
inductive PyVal where
  | pyNone
  | pyInt (n : Int)
  | pyStr (s : String)
  | pyBool (b : Bool)
  deriving DecidableEq

/-- Python truthiness, as tested by `if not deck_position`: `None`, `0`, the
empty string and `False` are falsy; every other modelled value is truthy. -/
def truthy : PyVal → Bool
  | PyVal.pyNone => false
  | PyVal.pyInt n => n != 0
  | PyVal.pyStr s => s != ""
  | PyVal.pyBool b => b

/-- The parsed labware-definition document (`json.load` result). The scripts
pass the whole structure through uninterpreted; the only field any stated
property reads back is the type identifier the definition carries. -/
structure LabwareDef where
  typeId : String
  deriving DecidableEq

/-- The filesystem as `open`/`json.load` observe it: a path either yields a
parsed definition document, or fails (file missing or malformed JSON). -/
def FS : Type := String → Option LabwareDef

/-- Where a created labware ends up: a deck slot given by the resolved
`deck_position` value, or the hosting module's own bay. -/
inductive LabwareLocation where
  | deckSlot (slot : PyVal)
  | moduleBay
  deriving DecidableEq

/-- A created labware: its type identifier, its caller-supplied label and
its resolved location. -/
structure Labware where
  typeId : String
  label : Option String
  location : LabwareLocation
  deriving DecidableEq

/-- A call made to the platform's placement primitive
`load_labware_from_definition`: either on the deck (`ProtocolContext`),
which takes a slot, or on a module, which takes none. -/
inductive PlacementCall where
  | deckPlace (defn : LabwareDef) (slot : PyVal) (label : Option String)
  | modulePlace (defn : LabwareDef) (label : Option String)
  deriving DecidableEq

/-- The observable outcome of one `load_custom_labware` call: the returned
labware (or the exception that propagated), whether `next_empty_slot` was
invoked, and the placement-primitive calls issued — per spec §4.2 the only
mutation of deck/module occupancy happens inside those primitive calls. -/
structure LoadOutcome where
  result : Except PyError Labware
  finderConsulted : Bool
  placements : List PlacementCall

/-- Modelled from the spec (§6, external collaborator): the platform's
`load_labware_from_definition(definition, slot, label)` on the Deck
(`ProtocolContext`) returns a new Labware carrying the definition's type
identifier and the caller's label, placed at the given slot. -/
def deck_load_labware_from_definition (defn : LabwareDef) (slot : PyVal)
    (label : Option String) : Labware :=
  ⟨defn.typeId, label, LabwareLocation.deckSlot slot⟩

/-- Modelled from the spec (§6, external collaborator): the platform's
`load_labware_from_definition(definition, label)` on a Module returns a new
Labware carrying the definition's type identifier and the caller's label,
placed in the module's own bay. -/
def module_load_labware_from_definition (defn : LabwareDef)
    (label : Option String) : Labware :=
  ⟨defn.typeId, label, LabwareLocation.moduleBay⟩

/-- The `parent` argument of `load_custom_labware`: the deck
(`parent.__class__ == protocol_api.protocol_context.ProtocolContext`,
carrying the current deck state) or any other container (a hardware
module). -/
inductive Container where
  | deckCtx (d : Deck)
  | moduleCtx

/-- `load_custom_labware(parent, file, deck_position=None, label=None)` from
`ot2_script_3.py`: open and parse the definition file (raising on failure);
if `parent` is the `ProtocolContext`, replace a falsy `deck_position` by
`next_empty_slot(parent)` (propagating its `IndexError`) and call the deck's
`load_labware_from_definition` with the resolved position and label;
otherwise call the module's `load_labware_from_definition` with the label
only. The outcome records the result and the calls made. -/
def load_custom_labware (fs : FS) (parent : Container) (file : String)
    (deck_position : PyVal) (label : Option String) : LoadOutcome :=
  match fs file with
  | none => ⟨Except.error PyError.definitionLoadError, false, []⟩
  | some labware_file =>
    match parent with
    | Container.deckCtx d =>
      if truthy deck_position then
        ⟨Except.ok (deck_load_labware_from_definition labware_file deck_position label),
         false,
         [PlacementCall.deckPlace labware_file deck_position label]⟩
      else
        match next_empty_slot d with
        | Except.ok s =>
            ⟨Except.ok (deck_load_labware_from_definition labware_file (PyVal.pyInt s) label),
             true,
             [PlacementCall.deckPlace labware_file (PyVal.pyInt s) label]⟩
        | Except.error e => ⟨Except.error e, true, []⟩
    | Container.moduleCtx =>
        ⟨Except.ok (module_load_labware_from_definition labware_file label),
         false,
         [PlacementCall.modulePlace labware_file label]⟩

/-- Concrete deck: thermocycler on 7, slots 1–6 occupied, slots 8, 10, 11
reporting empty, slot 9 empty, slot 12 holding the fixed trash. -/
def dTc1 : Deck := fun s =>
  if s = 7 then some thermocyclerStr
  else if s ≤ 6 then some "tiprack"
  else if s = 12 then some "trash"
  else none

/-- Concrete deck with no module: slots 1–4 occupied, slot 5 the first
empty one. -/
def dPlain : Deck := fun s =>
  if s ≤ 4 then some "plate" else if s = 12 then some "trash" else none

/-- Concrete deck: thermocycler on 7, every scanned candidate slot
(1–6 and 9) occupied, footprint slots 8, 10, 11 occupied by the module,
but slot 12 empty. -/
def dTrap : Deck := fun s =>
  if s = 7 then some thermocyclerStr
  else if s = 12 then none
  else some "plate"

/-- Concrete deck with no module, slot 12 occupied by the fixed trash,
slots 1 and 2 occupied, slot 3 empty. -/
def dThree : Deck := fun s =>
  if s ≤ 2 then some "plate" else if s = 12 then some "trash" else none

/-- Concrete deck with every slot occupied. -/
def dFull : Deck := fun _ => some "plate"

/-- Concrete definition document for witnesses. -/
def defnA : LabwareDef := ⟨"3dprinted_24_tuberack_1500ul"⟩

/-- Concrete definition-file path for witnesses. -/
def pathA : String := "labware/3dprinted_24_tuberack_1500ul.json"

/-- Concrete filesystem holding one definition file. -/
def fsOne : FS := fun f => if f = pathA then some defnA else none

/-- Concrete filesystem on which every definition file fails to load. -/
def fsBad : FS := fun _ => none

section ScanLemmas

theorem scan_eq_none_iff (d : Deck) (l : List Nat) :
    scan d l = none ↔ ∀ t ∈ l, d t ≠ none := by
  induction l with
  | nil => simp [scan]
  | cons a rest ih =>
    by_cases ha : d a = none
    · simp [scan, ha]
    · simp [scan, ha, ih]

theorem scan_mem_empty (d : Deck) (l : List Nat) (s : Nat)
    (h : scan d l = some s) : s ∈ l ∧ d s = none := by
  induction l with
  | nil => simp [scan] at h
  | cons a rest ih =>
    by_cases ha : d a = none
    · simp [scan, ha] at h
      subst h
      exact ⟨List.mem_cons_self a rest, ha⟩
    · simp [scan, ha] at h
      rcases ih h with ⟨hm, he⟩
      exact ⟨List.mem_cons_of_mem a hm, he⟩

theorem scan_min (d : Deck) (l : List Nat) (hl : l.Pairwise (· ≤ ·))
    (s : Nat) (h : scan d l = some s) :
    ∀ t ∈ l, d t = none → s ≤ t := by
  induction l with
  | nil => simp [scan] at h
  | cons a rest ih =>
    intro t ht hte
    rcases List.pairwise_cons.mp hl with ⟨hle, hrest⟩
    by_cases ha : d a = none
    · simp [scan, ha] at h
      subst h
      rcases List.mem_cons.mp ht with rfl | ht
      · exact Nat.le_refl t
      · exact hle t ht
    · simp [scan, ha] at h
      rcases List.mem_cons.mp ht with rfl | ht
      · exact absurd hte ha
      · exact ih hrest h t ht hte

theorem scan_isSome (d : Deck) (l : List Nat) (t : Nat)
    (ht : t ∈ l) (hte : d t = none) : ∃ s, scan d l = some s := by
  cases hs : scan d l with
  | some s => exact ⟨s, rfl⟩
  | none => exact absurd hte ((scan_eq_none_iff d l).mp hs t ht)

theorem scanS_eq (d : Deck) (l : List Nat) : scanS d l = (scan d l, d) := by
  induction l with
  | nil => simp [scanS, scan]
  | cons a rest ih =>
    by_cases ha : d a = none
    · simp [scanS, scan, ha]
    · simp [scanS, scan, ha, ih]

theorem next_empty_slotS_eq (d : Deck) :
    next_empty_slotS d = (next_empty_slot d, d) := by
  unfold next_empty_slotS next_empty_slot
  by_cases h7 : d 7 = some thermocyclerStr
  · simp only [h7, if_pos, scanS_eq]
    cases scan d tcSlots <;> simp
  · simp only [h7, if_neg, scanS_eq, if_false]
    cases scan d allSlots <;> simp

theorem tcSlots_pairwise : tcSlots.Pairwise (· ≤ ·) := by decide

theorem allSlots_pairwise : allSlots.Pairwise (· ≤ ·) := by decide

end ScanLemmas

theorem tcSlots_sub_allSlots : ∀ x ∈ tcSlots, x ∈ allSlots := by decide

theorem tcSlots_not_reserved : ∀ x ∈ tcSlots, x ∉ reservedFootprint := by decide

theorem non_reserved_mem_tcSlots :
    ∀ x ∈ allSlots, x ∉ reservedFootprint → x ≠ 12 → x ∈ tcSlots := by decide

/-- Claim C1: for every deck in which slot 7 holds the thermal-cycling
module, `next_empty_slot` returns the smallest-numbered empty slot among
{1,2,3,4,5,6,9} only — never 8, 10 or 11, even when those slots report
empty — and it does return a slot whenever some slot of that set is
empty. -/
theorem next_empty_slot_tc_smallest (d : Deck) (h : TcLoaded d) :
    (∀ s, next_empty_slot d = Except.ok s →
      s ∈ tcSlots ∧ d s = none ∧ (s ≠ 8 ∧ s ≠ 10 ∧ s ≠ 11) ∧
      ∀ u ∈ tcSlots, d u = none → s ≤ u) ∧
    (∀ t ∈ tcSlots, d t = none → ∃ s, next_empty_slot d = Except.ok s) := by
  have h7 : d 7 = some thermocyclerStr := h
  have hno : ∀ x ∈ tcSlots, x ≠ 8 ∧ x ≠ 10 ∧ x ≠ 11 := by decide
  constructor
  · intro s hs
    unfold next_empty_slot at hs
    rw [if_pos h7] at hs
    cases hscan : scan d tcSlots with
    | none => rw [hscan] at hs; cases hs
    | some u =>
      rw [hscan] at hs
      injection hs with hus
      rw [hus] at hscan
      obtain ⟨hm, he⟩ := scan_mem_empty d tcSlots s hscan
      exact ⟨hm, he, hno s hm, scan_min d tcSlots tcSlots_pairwise s hscan⟩
  · intro t ht hte
    obtain ⟨u, hu⟩ := scan_isSome d tcSlots t ht hte
    refine ⟨u, ?_⟩
    unfold next_empty_slot
    rw [if_pos h7, hu]

theorem next_empty_slot_tc_smallest_witness :
    TcLoaded dTc1 ∧ 9 ∈ tcSlots ∧ dTc1 9 = none ∧
    dTc1 8 = none ∧ dTc1 10 = none ∧ dTc1 11 = none ∧
    (∃ s, next_empty_slot dTc1 = Except.ok s) ∧
    next_empty_slot dTc1 = Except.ok 9 := by
  refine ⟨by decide, by decide, by decide, by decide, by decide, by decide,
    ?_, rfl⟩
  exact (next_empty_slot_tc_smallest dTc1 (by decide)).2 9 (by decide) (by decide)

/-- Claim C2: for every deck with no thermal-cycling module at slot 7,
`next_empty_slot` scans the slot identifiers 1..12 in ascending order and
returns the first — hence the smallest-numbered — empty slot. -/
theorem next_empty_slot_no_tc_smallest (d : Deck) (h : ¬ TcLoaded d) :
    allSlots = List.range' 1 12 ∧
    (∀ s, next_empty_slot d = Except.ok s →
      s ∈ allSlots ∧ d s = none ∧ ∀ u ∈ allSlots, d u = none → s ≤ u) ∧
    (∀ t ∈ allSlots, d t = none → ∃ s, next_empty_slot d = Except.ok s) := by
  have h7 : ¬ d 7 = some thermocyclerStr := h
  refine ⟨by decide, ?_, ?_⟩
  · intro s hs
    unfold next_empty_slot at hs
    rw [if_neg h7] at hs
    cases hscan : scan d allSlots with
    | none => rw [hscan] at hs; cases hs
    | some u =>
      rw [hscan] at hs
      injection hs with hus
      rw [hus] at hscan
      obtain ⟨hm, he⟩ := scan_mem_empty d allSlots s hscan
      exact ⟨hm, he, scan_min d allSlots allSlots_pairwise s hscan⟩
  · intro t ht hte
    obtain ⟨u, hu⟩ := scan_isSome d allSlots t ht hte
    refine ⟨u, ?_⟩
    unfold next_empty_slot
    rw [if_neg h7, hu]

theorem next_empty_slot_no_tc_smallest_witness :
    ¬ TcLoaded dPlain ∧ 5 ∈ allSlots ∧ dPlain 5 = none ∧
    (∃ s, next_empty_slot dPlain = Except.ok s) ∧
    next_empty_slot dPlain = Except.ok 5 := by
  refine ⟨by decide, by decide, by decide, ?_, rfl⟩
  exact (next_empty_slot_no_tc_smallest dPlain (by decide)).2.2 5 (by decide)
    (by decide)

/-- Claim C3 as stated is false: on `dTrap` the thermocycler is loaded,
slot 12 is empty — so slot 12 is allocatable (it holds no labware and is
outside the reserved footprint {7,8,10,11}) — yet `next_empty_slot` scans
only [1,2,3,4,5,6,9], finds each occupied, and raises the capacity error. -/
theorem next_empty_slot_allocatable_cex :
    Allocatable dTrap 12 ∧ TcLoaded dTrap ∧ dTrap 12 = none ∧
    (12 ∉ reservedFootprint) ∧
    next_empty_slot dTrap = Except.error PyError.noDeckSlotsRemaining :=
  ⟨by decide, by decide, by decide, by decide, rfl⟩

/-- Claim C3, amended: for every deck whose slot 12 is occupied (on the
reference hardware it permanently holds the fixed trash), `next_empty_slot`
succeeds with some slot iff at least one allocatable slot exists, and every
slot it returns is allocatable; in particular, with the thermocycler present
and a non-footprint slot other than 12 empty, the call does not raise the
capacity error. -/
theorem next_empty_slot_allocatable_amended (d : Deck) (h12 : d 12 ≠ none) :
    ((∃ s, Allocatable d s) ↔ ∃ s, next_empty_slot d = Except.ok s) ∧
    ∀ s, next_empty_slot d = Except.ok s → Allocatable d s := by
  have hok : ∀ s, next_empty_slot d = Except.ok s → Allocatable d s := by
    intro s hs
    unfold next_empty_slot at hs
    by_cases h7 : d 7 = some thermocyclerStr
    · rw [if_pos h7] at hs
      cases hscan : scan d tcSlots with
      | none => rw [hscan] at hs; cases hs
      | some u =>
        rw [hscan] at hs
        injection hs with hus
        rw [hus] at hscan
        obtain ⟨hm, he⟩ := scan_mem_empty d tcSlots s hscan
        exact ⟨tcSlots_sub_allSlots s hm, he,
          fun hc => tcSlots_not_reserved s hm hc.2⟩
    · rw [if_neg h7] at hs
      cases hscan : scan d allSlots with
      | none => rw [hscan] at hs; cases hs
      | some u =>
        rw [hscan] at hs
        injection hs with hus
        rw [hus] at hscan
        obtain ⟨hm, he⟩ := scan_mem_empty d allSlots s hscan
        exact ⟨hm, he, fun hc => h7 hc.1⟩
  refine ⟨⟨?_, fun hex => hex.elim fun s hs => ⟨s, hok s hs⟩⟩, hok⟩
  rintro ⟨s, hmem, hempty, hres⟩
  by_cases h7 : d 7 = some thermocyclerStr
  · have hs9 : s ∈ tcSlots := by
      refine non_reserved_mem_tcSlots s hmem ?_ ?_
      · intro hf; exact hres ⟨h7, hf⟩
      · rintro rfl; exact h12 hempty
    obtain ⟨u, hu⟩ := scan_isSome d tcSlots s hs9 hempty
    refine ⟨u, ?_⟩
    unfold next_empty_slot
    rw [if_pos h7, hu]
  · obtain ⟨u, hu⟩ := scan_isSome d allSlots s hmem hempty
    refine ⟨u, ?_⟩
    unfold next_empty_slot
    rw [if_neg h7, hu]

theorem next_empty_slot_allocatable_amended_witness :
    dThree 12 ≠ none ∧
    (((∃ s, Allocatable dThree s) ↔ ∃ s, next_empty_slot dThree = Except.ok s) ∧
      ∀ s, next_empty_slot dThree = Except.ok s → Allocatable dThree s) :=
  ⟨by decide, next_empty_slot_allocatable_amended dThree (by decide)⟩

/-- Claim C4: on every deck whose allocatable slots are all occupied — no
slot is simultaneously a deck slot, empty, and outside the reserved
footprint — `next_empty_slot` raises `IndexError('No Deck Slots Remaining')`;
and on every input the state-threaded run returns the deck unchanged: the
operation is a pure query that mutates nothing. -/
theorem next_empty_slot_capacity (d : Deck) (h : ∀ s, ¬ Allocatable d s) :
    next_empty_slot d = Except.error PyError.noDeckSlotsRemaining ∧
    ∀ e : Deck, next_empty_slotS e = (next_empty_slot e, e) := by
  refine ⟨?_, next_empty_slotS_eq⟩
  unfold next_empty_slot
  by_cases h7 : d 7 = some thermocyclerStr
  · rw [if_pos h7]
    have hnone : scan d tcSlots = none := by
      rw [scan_eq_none_iff]
      intro t ht hte
      exact h t ⟨tcSlots_sub_allSlots t ht, hte,
        fun hc => tcSlots_not_reserved t ht hc.2⟩
    rw [hnone]
  · rw [if_neg h7]
    have hnone : scan d allSlots = none := by
      rw [scan_eq_none_iff]
      intro t ht hte
      exact h t ⟨ht, hte, fun hc => h7 hc.1⟩
    rw [hnone]

theorem next_empty_slot_capacity_witness :
    (∀ s, ¬ Allocatable dFull s) ∧
    (next_empty_slot dFull = Except.error PyError.noDeckSlotsRemaining ∧
      ∀ e : Deck, next_empty_slotS e = (next_empty_slot e, e)) := by
  have h : ∀ s, ¬ Allocatable dFull s := fun s hs =>
    Option.noConfusion hs.2.1
  exact ⟨h, next_empty_slot_capacity dFull h⟩

/-- Claim C5: when the container is the Deck and no slot is supplied
(`deck_position` left at its default `None`), `load_custom_labware` selects
the slot by calling `next_empty_slot` on the current deck and places the new
labware there; in particular, on the concrete deck with slots 1 and 2
occupied, slot 3 empty and no module, the new labware is placed at
slot 3. -/
theorem load_custom_labware_auto_slot (fs : FS) (d : Deck) (file : String)
    (label : Option String) (defn : LabwareDef) (s : Nat)
    (hf : fs file = some defn) (hs : next_empty_slot d = Except.ok s) :
    load_custom_labware fs (Container.deckCtx d) file PyVal.pyNone label =
      ⟨Except.ok ⟨defn.typeId, label, LabwareLocation.deckSlot (PyVal.pyInt s)⟩,
       true,
       [PlacementCall.deckPlace defn (PyVal.pyInt s) label]⟩ ∧
    ∀ (fs2 : FS) (file2 : String) (label2 : Option String) (defn2 : LabwareDef),
      fs2 file2 = some defn2 →
      (load_custom_labware fs2 (Container.deckCtx dThree) file2
          PyVal.pyNone label2).result =
        Except.ok ⟨defn2.typeId, label2, LabwareLocation.deckSlot (PyVal.pyInt 3)⟩ := by
  constructor
  · simp [load_custom_labware, hf, truthy, hs, deck_load_labware_from_definition]
  · intro fs2 file2 label2 defn2 hf2
    have h3 : next_empty_slot dThree = Except.ok 3 := rfl
    simp [load_custom_labware, hf2, truthy, h3, deck_load_labware_from_definition]

theorem load_custom_labware_auto_slot_witness :
    fsOne pathA = some defnA ∧ next_empty_slot dThree = Except.ok 3 ∧
    (load_custom_labware fsOne (Container.deckCtx dThree) pathA
        PyVal.pyNone (some "DNA and Primers")).result =
      Except.ok ⟨defnA.typeId, some "DNA and Primers",
        LabwareLocation.deckSlot (PyVal.pyInt 3)⟩ := by
  have h := load_custom_labware_auto_slot fsOne dThree pathA
    (some "DNA and Primers") defnA 3 rfl rfl
  exact ⟨rfl, rfl, by rw [h.1]; rfl⟩

/-- Claim C6: when the container is a non-deck (module) object,
`load_custom_labware` never invokes `next_empty_slot`, its outcome does not
depend on any supplied `deck_position` value, and the module's own placement
primitive is called with the definition and label only — no slot. -/
theorem load_custom_labware_module_no_finder (fs : FS) (file : String)
    (v w : PyVal) (label : Option String) :
    load_custom_labware fs Container.moduleCtx file v label =
      load_custom_labware fs Container.moduleCtx file w label ∧
    (load_custom_labware fs Container.moduleCtx file v label).finderConsulted
      = false ∧
    ∀ defn, fs file = some defn →
      (load_custom_labware fs Container.moduleCtx file v label).placements =
        [PlacementCall.modulePlace defn label] := by
  cases hf : fs file with
  | none =>
    refine ⟨by simp [load_custom_labware, hf], by simp [load_custom_labware, hf],
      fun defn hd => Option.noConfusion hd⟩
  | some defn0 =>
    refine ⟨by simp [load_custom_labware, hf], by simp [load_custom_labware, hf],
      fun defn hd => ?_⟩
    injection hd with hdd
    subst hdd
    simp [load_custom_labware, hf]

theorem load_custom_labware_module_no_finder_witness :
    (load_custom_labware fsOne Container.moduleCtx pathA
        (PyVal.pyInt 5) (some "Reagents") =
      load_custom_labware fsOne Container.moduleCtx pathA
        PyVal.pyNone (some "Reagents")) ∧
    (load_custom_labware fsOne Container.moduleCtx pathA
        (PyVal.pyInt 5) (some "Reagents")).finderConsulted = false ∧
    (load_custom_labware fsOne Container.moduleCtx pathA
        (PyVal.pyInt 5) (some "Reagents")).placements =
      [PlacementCall.modulePlace defnA (some "Reagents")] := by
  have h := load_custom_labware_module_no_finder fsOne pathA
    (PyVal.pyInt 5) PyVal.pyNone (some "Reagents")
  exact ⟨h.1, h.2.1, h.2.2 defnA rfl⟩

/-- Claim C7: when the caller supplies a slot (a truthy `deck_position`
value, which every slot identifier is) and the container is the Deck, that
slot is passed to the deck's placement primitive unchanged and without any
occupancy check: the outcome is the same for every deck occupancy, 
`next_empty_slot` is never invoked, and the placement call carries exactly
the supplied slot — even when that slot is currently occupied. -/
theorem load_custom_labware_explicit_slot (fs : FS) (d e : Deck)
    (file : String) (v : PyVal) (label : Option String)
    (hv : truthy v = true) :
    load_custom_labware fs (Container.deckCtx d) file v label =
      load_custom_labware fs (Container.deckCtx e) file v label ∧
    (load_custom_labware fs (Container.deckCtx d) file v label).finderConsulted
      = false ∧
    ∀ defn, fs file = some defn →
      (load_custom_labware fs (Container.deckCtx d) file v label).placements =
        [PlacementCall.deckPlace defn v label] ∧
      (load_custom_labware fs (Container.deckCtx d) file v label).result =
        Except.ok ⟨defn.typeId, label, LabwareLocation.deckSlot v⟩ := by
  cases hf : fs file with
  | none =>
    refine ⟨by simp [load_custom_labware, hf], by simp [load_custom_labware, hf],
      fun defn hd => Option.noConfusion hd⟩
  | some defn0 =>
    refine ⟨by simp [load_custom_labware, hf, hv],
      by simp [load_custom_labware, hf, hv], fun defn hd => ?_⟩
    injection hd with hdd
    subst hdd
    exact ⟨by simp [load_custom_labware, hf, hv],
      by simp [load_custom_labware, hf, hv, deck_load_labware_from_definition]⟩

theorem load_custom_labware_explicit_slot_witness :
    truthy (PyVal.pyInt 2) = true ∧ dFull 2 ≠ none ∧
    (load_custom_labware fsOne (Container.deckCtx dFull) pathA
        (PyVal.pyInt 2) none).placements =
      [PlacementCall.deckPlace defnA (PyVal.pyInt 2) none] ∧
    (load_custom_labware fsOne (Container.deckCtx dFull) pathA
        (PyVal.pyInt 2) none).result =
      Except.ok ⟨defnA.typeId, none, LabwareLocation.deckSlot (PyVal.pyInt 2)⟩ ∧
    load_custom_labware fsOne (Container.deckCtx dFull) pathA
        (PyVal.pyInt 2) none =
      load_custom_labware fsOne (Container.deckCtx dThree) pathA
        (PyVal.pyInt 2) none := by
  have h := load_custom_labware_explicit_slot fsOne dFull dThree pathA
    (PyVal.pyInt 2) none rfl
  exact ⟨rfl, by decide, (h.2.2 defnA rfl).1, (h.2.2 defnA rfl).2, h.1⟩

/-- Claim C8: when the definition file is missing or malformed (the
filesystem yields no parsed document for the path), `load_custom_labware`
fails with the definition-load error before invoking the slot finder and
before issuing any placement call, so no labware is registered and deck and
module occupancy are untouched. -/
theorem load_custom_labware_missing_definition (fs : FS) (parent : Container)
    (file : String) (v : PyVal) (label : Option String)
    (hf : fs file = none) :
    load_custom_labware fs parent file v label =
      ⟨Except.error PyError.definitionLoadError, false, []⟩ := by
  simp [load_custom_labware, hf]

theorem load_custom_labware_missing_definition_witness :
    fsBad pathA = none ∧
    load_custom_labware fsBad (Container.deckCtx dThree) pathA
        PyVal.pyNone none =
      ⟨Except.error PyError.definitionLoadError, false, []⟩ :=
  ⟨rfl, load_custom_labware_missing_definition fsBad
    (Container.deckCtx dThree) pathA PyVal.pyNone none rfl⟩

/-- Claim C9: every labware a successful `load_custom_labware` call returns
carries exactly the type identifier given by the definition file and the
label supplied by the caller, identically for every container and for both
slot-assignment paths (explicit slot and auto-selected). -/
theorem load_custom_labware_round_trip (fs : FS) (parent : Container)
    (file : String) (v : PyVal) (label : Option String) (defn : LabwareDef)
    (lw : Labware) (hf : fs file = some defn)
    (h : (load_custom_labware fs parent file v label).result = Except.ok lw) :
    lw.typeId = defn.typeId ∧ lw.label = label := by
  cases parent with
  | moduleCtx =>
    simp [load_custom_labware, hf, module_load_labware_from_definition] at h
    subst h
    exact ⟨rfl, rfl⟩
  | deckCtx d =>
    by_cases hv : truthy v = true
    · simp [load_custom_labware, hf, hv, deck_load_labware_from_definition] at h
      subst h
      exact ⟨rfl, rfl⟩
    · cases hs : next_empty_slot d with
      | ok s =>
        simp [load_custom_labware, hf, hv, hs,
          deck_load_labware_from_definition] at h
        subst h
        exact ⟨rfl, rfl⟩
      | error e =>
        simp [load_custom_labware, hf, hv, hs] at h

theorem load_custom_labware_round_trip_witness :
    fsOne pathA = some defnA ∧
    (load_custom_labware fsOne Container.moduleCtx pathA PyVal.pyNone
        (some "Reagents")).result =
      Except.ok ⟨defnA.typeId, some "Reagents", LabwareLocation.moduleBay⟩ ∧
    ((⟨defnA.typeId, some "Reagents", LabwareLocation.moduleBay⟩ :
        Labware).typeId = defnA.typeId ∧
      (⟨defnA.typeId, some "Reagents", LabwareLocation.moduleBay⟩ :
        Labware).label = some "Reagents") :=
  ⟨rfl, rfl, load_custom_labware_round_trip fsOne Container.moduleCtx pathA
    PyVal.pyNone (some "Reagents") defnA _ rfl rfl⟩

/-- Claim C10: with the Deck as container, any falsy `deck_position` value
(`None`, `0`, the empty string, `False`) behaves exactly as if no slot were
supplied — the guard `if not deck_position` tests truthiness, not argument
presence — so automatic slot selection via `next_empty_slot` is triggered. -/
theorem load_custom_labware_falsy_position (fs : FS) (d : Deck)
    (file : String) (v : PyVal) (label : Option String)
    (hv : truthy v = false) :
    load_custom_labware fs (Container.deckCtx d) file v label =
      load_custom_labware fs (Container.deckCtx d) file PyVal.pyNone label ∧
    ∀ defn, fs file = some defn →
      (load_custom_labware fs (Container.deckCtx d) file v label).finderConsulted
        = true := by
  cases hf : fs file with
  | none =>
    exact ⟨by simp [load_custom_labware, hf], fun defn hd => Option.noConfusion hd⟩
  | some defn0 =>
    constructor
    · simp [load_custom_labware, hf, hv,
        show truthy PyVal.pyNone = false from rfl]
    · intro defn hd
      simp only [load_custom_labware, hf, hv]
      cases next_empty_slot d <;> simp

theorem load_custom_labware_falsy_position_witness :
    truthy (PyVal.pyInt 0) = false ∧ truthy (PyVal.pyStr "") = false ∧
    truthy (PyVal.pyBool false) = false ∧ truthy PyVal.pyNone = false ∧
    (load_custom_labware fsOne (Container.deckCtx dThree) pathA
        (PyVal.pyInt 0) none =
      load_custom_labware fsOne (Container.deckCtx dThree) pathA
        PyVal.pyNone none) ∧
    (load_custom_labware fsOne (Container.deckCtx dThree) pathA
        (PyVal.pyInt 0) none).finderConsulted = true := by
  have h := load_custom_labware_falsy_position fsOne dThree pathA
    (PyVal.pyInt 0) none rfl
  exact ⟨rfl, rfl, rfl, rfl, h.1, h.2 defnA rfl⟩
